import Mathlib

/-!
Verification of the Atlas property-analysis core against its specification.

The development is a shallow embedding of the JavaScript sources:
JS numbers are modelled as `ℚ` (the arithmetic the spec describes is exact
rational arithmetic; IEEE rounding noise is below the spec's granularity),
JS strings as `String`, fallible computations as `Except String`.
String primitives that the code relies on (`toLowerCase`, `includes`,
`trim`, `Math.round`, `parseInt`) are given executable character-level
models below.
-/

namespace Atlas

/-- JS `Math.round`: round half toward positive infinity. -/
def jsRound (q : ℚ) : ℤ := ⌊q + 1/2⌋

/-- Boolean test: is `l₁` a leading segment of `l₂`. -/
def listPrefixOf : List Char → List Char → Bool
  | [], _ => true
  | _ :: _, [] => false
  | a :: as, b :: bs => a == b && listPrefixOf as bs

/-- Boolean test: does `l₁` occur contiguously inside `l₂`. -/
def listInfixOf (l₁ l₂ : List Char) : Bool :=
  match l₂ with
  | [] => l₁.isEmpty
  | _ :: rest => listPrefixOf l₁ l₂ || listInfixOf l₁ rest

/-- JS `String.prototype.includes`: substring containment. -/
def jsIncludes (s sub : String) : Bool := listInfixOf sub.toList s.toList

/-- JS `String.prototype.toLowerCase` (ASCII range, which is all the code compares). -/
def jsToLower (s : String) : String := String.mk (s.toList.map Char.toLower)

/-- JS `String.prototype.trim`. -/
def jsTrim (s : String) : String :=
  String.mk (((s.toList.dropWhile Char.isWhitespace).reverse.dropWhile
      Char.isWhitespace).reverse)

/-- The canonical extraction output consumed by the metrics engine
(the field-complete record shape produced by the mock data and assumed by
`calculateInvestmentMetrics`). -/
structure NormalizedProperty where
  propertyAddress : String
  location : String
  purchasePrice : ℚ
  estimatedMonthlyRent : ℚ
  squareMeters : ℚ
  bedrooms : ℚ
  bathrooms : ℚ
  propertyType : String
  features : List String
  deriving DecidableEq

/-- The `factors` object built by `assessRisk`. -/
structure RiskFactors where
  location : String
  propertyType : String
  rentalYield : ℚ
  deriving DecidableEq

/-- The risk-assessment object built by `assessRisk`. -/
structure RiskAssessment where
  overall : String
  score : ℚ
  factors : RiskFactors
  deriving DecidableEq

/-- `assessRisk` from `propertyScraperService`: base score 70, +10 for a
madrid/barcelona substring of the lowercased location, ±10 on the rental
yield, then a threshold category. -/
def assessRisk (propertyData : NormalizedProperty) : RiskAssessment :=
  let score0 : ℚ := 70
  let score1 :=
    if jsIncludes (jsToLower propertyData.location) "madrid" ||
       jsIncludes (jsToLower propertyData.location) "barcelona" then
      score0 + 10
    else score0
  let rentalYield :=
    propertyData.estimatedMonthlyRent * 12 / propertyData.purchasePrice * 100
  let score2 :=
    if rentalYield > 5 then score1 + 10
    else if rentalYield < 3 then score1 - 10
    else score1
  let riskCategory :=
    if score2 ≥ 85 then "Very Low"
    else if score2 ≥ 70 then "Low"
    else if score2 ≥ 50 then "Medium"
    else if score2 ≥ 30 then "High"
    else "Very High"
  { overall := riskCategory
    score := score2
    factors :=
      { location := propertyData.location
        propertyType := propertyData.propertyType
        rentalYield := rentalYield } }

/-- The `expenses` sub-object of the financial metrics. -/
structure Expenses where
  propertyTax : ℚ
  insurance : ℚ
  maintenance : ℚ
  managementFees : ℚ
  deriving DecidableEq

/-- The `financialMetrics` object built by `calculateInvestmentMetrics`. -/
structure FinancialMetrics where
  purchasePrice : ℚ
  estimatedMonthlyRent : ℚ
  annualRentalIncome : ℚ
  expenses : Expenses
  totalExpenses : ℚ
  netOperatingIncome : ℚ
  capRate : ℚ
  cashOnCashReturn : ℚ
  rentalYield : ℚ
  pricePerSquareMeter : ℚ
  breakEvenOccupancy : ℚ
  mortgagePayment : ℚ
  deriving DecidableEq

/-- The record returned by `calculateInvestmentMetrics`: the spread of the
input record plus the two derived objects. -/
structure EnrichedProperty where
  propertyAddress : String
  location : String
  purchasePrice : ℚ
  estimatedMonthlyRent : ℚ
  squareMeters : ℚ
  bedrooms : ℚ
  bathrooms : ℚ
  propertyType : String
  features : List String
  financialMetrics : FinancialMetrics
  riskAssessment : RiskAssessment
  deriving DecidableEq

/-- The base fields of an enriched record (the part spread from the input). -/
def EnrichedProperty.toNormalized (e : EnrichedProperty) : NormalizedProperty :=
  { propertyAddress := e.propertyAddress
    location := e.location
    purchasePrice := e.purchasePrice
    estimatedMonthlyRent := e.estimatedMonthlyRent
    squareMeters := e.squareMeters
    bedrooms := e.bedrooms
    bathrooms := e.bathrooms
    propertyType := e.propertyType
    features := e.features }

/-- `calculateInvestmentMetrics` from `propertyScraperService`, translated
statement by statement (including the mortgage block the claims do not
mention). -/
def calculateInvestmentMetrics (propertyData : NormalizedProperty) : EnrichedProperty :=
  let purchasePrice := propertyData.purchasePrice
  let estimatedMonthlyRent := propertyData.estimatedMonthlyRent
  let squareMeters := propertyData.squareMeters
  let annualRentalIncome := estimatedMonthlyRent * 12
  let propertyTax := purchasePrice * 0.005
  let insurance := purchasePrice * 0.002
  let maintenance := purchasePrice * 0.01
  let managementFees := annualRentalIncome * 0.08
  let totalExpenses := propertyTax + insurance + maintenance + managementFees
  let netOperatingIncome := annualRentalIncome - totalExpenses
  let capRate := netOperatingIncome / purchasePrice * 100
  let downPayment := purchasePrice * 0.3
  let loanAmount := purchasePrice - downPayment
  let interestRate : ℚ := 3.5
  let loanTerm : ℕ := 30
  let monthlyInterestRate := interestRate / 100 / 12
  let totalPayments : ℕ := loanTerm * 12
  let monthlyMortgagePayment :=
    loanAmount * monthlyInterestRate * (1 + monthlyInterestRate) ^ totalPayments /
      ((1 + monthlyInterestRate) ^ totalPayments - 1)
  let annualMortgagePayment := monthlyMortgagePayment * 12
  let annualCashFlow := netOperatingIncome - annualMortgagePayment
  let cashOnCashReturn := annualCashFlow / downPayment * 100
  let rentalYield := annualRentalIncome / purchasePrice * 100
  let pricePerSquareMeter := purchasePrice / squareMeters
  let riskAssessment := assessRisk propertyData
  { propertyAddress := propertyData.propertyAddress
    location := propertyData.location
    purchasePrice := propertyData.purchasePrice
    estimatedMonthlyRent := propertyData.estimatedMonthlyRent
    squareMeters := propertyData.squareMeters
    bedrooms := propertyData.bedrooms
    bathrooms := propertyData.bathrooms
    propertyType := propertyData.propertyType
    features := propertyData.features
    financialMetrics :=
      { purchasePrice := purchasePrice
        estimatedMonthlyRent := estimatedMonthlyRent
        annualRentalIncome := annualRentalIncome
        expenses :=
          { propertyTax := propertyTax
            insurance := insurance
            maintenance := maintenance
            managementFees := managementFees }
        totalExpenses := totalExpenses
        netOperatingIncome := netOperatingIncome
        capRate := capRate
        cashOnCashReturn := cashOnCashReturn
        rentalYield := rentalYield
        pricePerSquareMeter := pricePerSquareMeter
        breakEvenOccupancy := totalExpenses / annualRentalIncome * 100
        mortgagePayment := monthlyMortgagePayment }
    riskAssessment := riskAssessment }

/-- The metrics call viewed as a fallible operation. The source contains no
input validation and no throw statement: on any field-complete record every
arithmetic step is a total JS number operation (division by zero included),
so the call always succeeds. -/
def calculateInvestmentMetricsE (propertyData : NormalizedProperty) :
    Except String EnrichedProperty :=
  .ok (calculateInvestmentMetrics propertyData)

/-- The spec's worked example (and the server's mock record): price 450000,
monthly rent 1950, 90 square meters, located in Madrid. -/
def exampleProperty : NormalizedProperty :=
  { propertyAddress := "Calle Gran Vía 28, Madrid, España"
    location := "Madrid"
    purchasePrice := 450000
    estimatedMonthlyRent := 1950
    squareMeters := 90
    bedrooms := 2
    bathrooms := 2
    propertyType := "Apartment"
    features := [] }

/-- The example record with `squareMeters` zeroed out, the input the
spec claims must be rejected. -/
def zeroAreaProperty : NormalizedProperty :=
  { exampleProperty with squareMeters := 0 }

/-- C1: for every record with positive price and rent the metrics engine
computes the stated income, expense, NOI and cap-rate formulas, and on the
worked example (450000 / 1950 / 90) it yields exactly the spec's numbers,
with capRate = 3.084 (within 0.01 of the quoted 3.08) and rentalYield = 5.2. -/
theorem calculateInvestmentMetrics_formulas :
    (∀ p : NormalizedProperty, 0 < p.purchasePrice → 0 < p.estimatedMonthlyRent →
      (calculateInvestmentMetrics p).financialMetrics.annualRentalIncome =
          p.estimatedMonthlyRent * 12 ∧
      (calculateInvestmentMetrics p).financialMetrics.expenses.propertyTax =
          0.005 * p.purchasePrice ∧
      (calculateInvestmentMetrics p).financialMetrics.expenses.insurance =
          0.002 * p.purchasePrice ∧
      (calculateInvestmentMetrics p).financialMetrics.expenses.maintenance =
          0.01 * p.purchasePrice ∧
      (calculateInvestmentMetrics p).financialMetrics.expenses.managementFees =
          0.08 * (calculateInvestmentMetrics p).financialMetrics.annualRentalIncome ∧
      (calculateInvestmentMetrics p).financialMetrics.netOperatingIncome =
          (calculateInvestmentMetrics p).financialMetrics.annualRentalIncome -
            (calculateInvestmentMetrics p).financialMetrics.totalExpenses ∧
      (calculateInvestmentMetrics p).financialMetrics.capRate =
          (calculateInvestmentMetrics p).financialMetrics.netOperatingIncome /
            p.purchasePrice * 100) ∧
    ((calculateInvestmentMetrics exampleProperty).financialMetrics.annualRentalIncome = 23400 ∧
     (calculateInvestmentMetrics exampleProperty).financialMetrics.expenses.propertyTax = 2250 ∧
     (calculateInvestmentMetrics exampleProperty).financialMetrics.expenses.insurance = 900 ∧
     (calculateInvestmentMetrics exampleProperty).financialMetrics.expenses.maintenance = 4500 ∧
     (calculateInvestmentMetrics exampleProperty).financialMetrics.expenses.managementFees = 1872 ∧
     (calculateInvestmentMetrics exampleProperty).financialMetrics.totalExpenses = 9522 ∧
     (calculateInvestmentMetrics exampleProperty).financialMetrics.netOperatingIncome = 13878 ∧
     (calculateInvestmentMetrics exampleProperty).financialMetrics.capRate = 3.084 ∧
     |(calculateInvestmentMetrics exampleProperty).financialMetrics.capRate - 3.08| < 0.01 ∧
     (calculateInvestmentMetrics exampleProperty).financialMetrics.rentalYield = 5.2) := by
  constructor
  · intro p hp hr
    refine ⟨?_, ?_, ?_, ?_, ?_, ?_, ?_⟩ <;> simp only [calculateInvestmentMetrics] <;> ring
  · simp only [calculateInvestmentMetrics, exampleProperty]
    norm_num [abs_lt]

/-- C1 witness: the general part of `calculateInvestmentMetrics_formulas`
instantiated at the worked example, whose price and rent are positive. -/
theorem calculateInvestmentMetrics_formulas_witness :
    (calculateInvestmentMetrics exampleProperty).financialMetrics.annualRentalIncome =
        exampleProperty.estimatedMonthlyRent * 12 ∧
    (calculateInvestmentMetrics exampleProperty).financialMetrics.expenses.propertyTax =
        0.005 * exampleProperty.purchasePrice ∧
    (calculateInvestmentMetrics exampleProperty).financialMetrics.expenses.insurance =
        0.002 * exampleProperty.purchasePrice ∧
    (calculateInvestmentMetrics exampleProperty).financialMetrics.expenses.maintenance =
        0.01 * exampleProperty.purchasePrice ∧
    (calculateInvestmentMetrics exampleProperty).financialMetrics.expenses.managementFees =
        0.08 * (calculateInvestmentMetrics exampleProperty).financialMetrics.annualRentalIncome ∧
    (calculateInvestmentMetrics exampleProperty).financialMetrics.netOperatingIncome =
        (calculateInvestmentMetrics exampleProperty).financialMetrics.annualRentalIncome -
          (calculateInvestmentMetrics exampleProperty).financialMetrics.totalExpenses ∧
    (calculateInvestmentMetrics exampleProperty).financialMetrics.capRate =
        (calculateInvestmentMetrics exampleProperty).financialMetrics.netOperatingIncome /
          exampleProperty.purchasePrice * 100 :=
  calculateInvestmentMetrics_formulas.1 exampleProperty
    (by norm_num [exampleProperty]) (by norm_num [exampleProperty])

/-- C8: the metrics engine is a pure function (two evaluations on the same
record are the same value) and the enriched record carries every field of
the input record unchanged. -/
theorem calculateInvestmentMetrics_pure (p : NormalizedProperty) :
    calculateInvestmentMetrics p = calculateInvestmentMetrics p ∧
    (calculateInvestmentMetrics p).toNormalized = p ∧
    (calculateInvestmentMetrics p).riskAssessment = assessRisk p :=
  ⟨rfl, rfl, rfl⟩

/-- C6: the risk score is 70 plus 10 for a case-insensitive madrid/barcelona
substring of the location, plus 10 when the rental yield exceeds 5 and minus
10 when it is below 3; the category is the stated threshold function of the
score. -/
theorem assessRisk_spec (p : NormalizedProperty) (hp : 0 < p.purchasePrice) :
    (assessRisk p).score =
      70 + (if jsIncludes (jsToLower p.location) "madrid" ||
               jsIncludes (jsToLower p.location) "barcelona" then (10 : ℚ) else 0)
        + (if p.estimatedMonthlyRent * 12 / p.purchasePrice * 100 > 5 then (10 : ℚ)
           else if p.estimatedMonthlyRent * 12 / p.purchasePrice * 100 < 3 then -10 else 0) ∧
    (assessRisk p).overall =
      (if (assessRisk p).score ≥ 85 then "Very Low"
       else if (assessRisk p).score ≥ 70 then "Low"
       else if (assessRisk p).score ≥ 50 then "Medium"
       else if (assessRisk p).score ≥ 30 then "High"
       else "Very High") := by
  simp only [assessRisk]
  split_ifs <;> norm_num at *

/-- C6 witness: the worked example is in Madrid with a 5.2 rental yield, so
its score is 70 + 10 + 10 and its category the threshold value. -/
theorem assessRisk_spec_witness :
    (assessRisk exampleProperty).score =
      70 + (if jsIncludes (jsToLower exampleProperty.location) "madrid" ||
               jsIncludes (jsToLower exampleProperty.location) "barcelona" then (10 : ℚ) else 0)
        + (if exampleProperty.estimatedMonthlyRent * 12 / exampleProperty.purchasePrice * 100 > 5
           then (10 : ℚ)
           else if exampleProperty.estimatedMonthlyRent * 12 /
               exampleProperty.purchasePrice * 100 < 3 then -10 else 0) ∧
    (assessRisk exampleProperty).overall =
      (if (assessRisk exampleProperty).score ≥ 85 then "Very Low"
       else if (assessRisk exampleProperty).score ≥ 70 then "Low"
       else if (assessRisk exampleProperty).score ≥ 50 then "Medium"
       else if (assessRisk exampleProperty).score ≥ 30 then "High"
       else "Very High") :=
  assessRisk_spec exampleProperty (by norm_num [exampleProperty])

/-- C10: the risk score always lands in {60, 70, 80, 90}, so the category is
always Medium, Low or Very Low and the High / Very High branches are
unreachable. -/
theorem assessRisk_score_range (p : NormalizedProperty) :
    ((assessRisk p).score = 60 ∨ (assessRisk p).score = 70 ∨
     (assessRisk p).score = 80 ∨ (assessRisk p).score = 90) ∧
    ((assessRisk p).overall = "Medium" ∨ (assessRisk p).overall = "Low" ∨
     (assessRisk p).overall = "Very Low") := by
  simp only [assessRisk]
  split_ifs <;> norm_num at *

/-- C4 counterexample: on the example record with `squareMeters = 0` the
metrics call succeeds (no `InvalidMetricsInputError` is raised anywhere in
the code) and still computes the other metrics. -/
theorem calculateInvestmentMetricsE_zeroArea :
    (calculateInvestmentMetricsE zeroAreaProperty).isOk = true ∧
    (calculateInvestmentMetrics zeroAreaProperty).financialMetrics.annualRentalIncome = 23400 := by
  refine ⟨rfl, ?_⟩
  simp only [calculateInvestmentMetrics, zeroAreaProperty, exampleProperty]
  norm_num

/-- C4 amended: the metrics engine performs no input validation; even when
purchasePrice ≤ 0, estimatedMonthlyRent ≤ 0 or squareMeters ≤ 0 it returns
an enriched record and never fails. -/
theorem calculateInvestmentMetricsE_no_validation (p : NormalizedProperty)
    (h : p.purchasePrice ≤ 0 ∨ p.estimatedMonthlyRent ≤ 0 ∨ p.squareMeters ≤ 0) :
    calculateInvestmentMetricsE p = .ok (calculateInvestmentMetrics p) :=
  rfl

/-- C4 amended witness: the zero-area record satisfies the bad-input
hypothesis and the call still succeeds. -/
theorem calculateInvestmentMetricsE_no_validation_witness :
    calculateInvestmentMetricsE zeroAreaProperty = .ok (calculateInvestmentMetrics zeroAreaProperty) :=
  calculateInvestmentMetricsE_no_validation zeroAreaProperty
    (Or.inr (Or.inr (by norm_num [zeroAreaProperty])))

/-- Digit list of a natural number, driven by a fuel argument that the
caller sets at least as large as the digit count. -/
def natDigits (fuel n : Nat) : List Char :=
  match fuel with
  | 0 => []
  | fuel + 1 =>
    if n < 10 then [Char.ofNat (48 + n)]
    else natDigits fuel (n / 10) ++ [Char.ofNat (48 + n % 10)]

/-- Decimal rendering of a natural number. -/
def natToString (n : Nat) : String := String.mk (natDigits (n + 1) n)

/-- JS `Number.prototype.toFixed(2)`: two-decimal rendering (half-up
rounding, which agrees with `toFixed` on the nonnegative yields the
narrative prints). -/
def toFixed2 (q : ℚ) : String :=
  let scaled := jsRound (q * 100)
  let sign := if scaled < 0 then "-" else ""
  let n := scaled.natAbs
  sign ++ natToString (n / 100) ++ "." ++
    (if n % 100 < 10 then "0" else "") ++ natToString (n % 100)

/-- The input shape `generateAIAnalysis` dereferences: an enriched record
whose `financialMetrics` / `riskAssessment` members may be absent (the
deliberately malformed case of the spec); accessing a member of an absent
object is the JS `TypeError` the outer catch absorbs. -/
structure ScoringInput where
  financialMetrics : Option FinancialMetrics
  riskAssessment : Option RiskAssessment
  squareMeters : ℚ
  deriving DecidableEq

/-- The `{score, analysis}` pair returned by `generateAIAnalysis`. -/
structure AIAnalysis where
  score : ℤ
  analysis : String
  deriving DecidableEq

/-- The fixed last-resort result of the outer catch in `generateAIAnalysis`. -/
def unavailableAnalysis : AIAnalysis :=
  { score := 70
    analysis := "Analysis could not be completed. Using estimated score based on available data." }

/-- The templated sentence of the heuristic path. -/
def heuristicNarrative (fm : FinancialMetrics) (ra : RiskAssessment) : String :=
  "Property analysis complete. This property has a rental yield of " ++
    toFixed2 fm.rentalYield ++ "%, which is " ++
    (if fm.rentalYield > 5 then "good" else "average") ++
    " for the Spanish market. The risk assessment is " ++ jsToLower ra.overall ++
    ", and the location scores are excellent."

/-- `generateAIAnalysis` from the server. The external OpenAI call chain is
abstracted by `aiResult`: `some r` when the key is configured, the call
returns, and the score pattern-match succeeds with result `r`; `none` for
every other outcome (no key, call threw, no score in the response), all of
which fall through to the deterministic heuristic. Absent metrics objects
throw before any AI work, landing in the outer catch. -/
def generateAIAnalysis (propertyData : ScoringInput) (aiResult : Option AIAnalysis) : AIAnalysis :=
  match propertyData.financialMetrics, propertyData.riskAssessment with
  | some fm, some ra =>
    let rentalYieldScore := min (fm.rentalYield * 10) 50
    let riskScore := min (ra.score * 0.3) 30
    let locationScore := min ((if propertyData.squareMeters > 70 then (80 : ℚ) else 60) / 20 * 10) 20
    let totalScore := jsRound (rentalYieldScore + riskScore + locationScore)
    match aiResult with
    | some r => r
    | none => { score := totalScore, analysis := heuristicNarrative fm ra }
  | _, _ => unavailableAnalysis

/-- A malformed scoring input: the `financialMetrics` member is missing. -/
def noMetricsInput : ScoringInput :=
  { financialMetrics := none
    riskAssessment := some (calculateInvestmentMetrics exampleProperty).riskAssessment
    squareMeters := 90 }

/-- The worked example, enriched and fed to the scorer. -/
def exampleScoringInput : ScoringInput :=
  { financialMetrics := some (calculateInvestmentMetrics exampleProperty).financialMetrics
    riskAssessment := some (calculateInvestmentMetrics exampleProperty).riskAssessment
    squareMeters := 90 }

/-- C2: scoring always returns a `{score, analysis}` pair; when a metrics
member is missing the heuristic dereference throws and the fixed score 70
with the generic narrative comes back, whatever the AI call did; and an AI
failure (modelled by `aiResult = none`) is absorbed: the heuristic pair is
returned to the caller instead of an error. -/
theorem generateAIAnalysis_never_fails (p : ScoringInput) (ai : Option AIAnalysis) :
    (∃ s a, generateAIAnalysis p ai = { score := s, analysis := a }) ∧
    ((p.financialMetrics = none ∨ p.riskAssessment = none) →
      generateAIAnalysis p ai =
        { score := 70
          analysis := "Analysis could not be completed. Using estimated score based on available data." }) ∧
    (∀ fm ra, p.financialMetrics = some fm → p.riskAssessment = some ra →
      generateAIAnalysis p none =
        { score := jsRound (min (fm.rentalYield * 10) 50 + min (ra.score * 0.3) 30 +
            min ((if p.squareMeters > 70 then (80 : ℚ) else 60) / 20 * 10) 20)
          analysis := heuristicNarrative fm ra }) := by
  refine ⟨⟨(generateAIAnalysis p ai).score, (generateAIAnalysis p ai).analysis, rfl⟩, ?_, ?_⟩
  · intro h
    rcases hfm : p.financialMetrics with _ | fm <;>
      rcases hra : p.riskAssessment with _ | ra <;>
        simp only [generateAIAnalysis, hfm, hra, unavailableAnalysis] <;>
          rcases h with h | h <;> simp_all
  · intro fm ra hfm hra
    simp only [generateAIAnalysis, hfm, hra]

/-- C2 witness: the malformed input (missing `financialMetrics`) returns the
fixed 70 / generic-narrative pair even when the AI call would have produced
a result. -/
theorem generateAIAnalysis_never_fails_witness :
    generateAIAnalysis noMetricsInput (some { score := 99, analysis := "ignored" }) =
      { score := 70
        analysis := "Analysis could not be completed. Using estimated score based on available data." } :=
  (generateAIAnalysis_never_fails noMetricsInput
    (some { score := 99, analysis := "ignored" })).2.1 (Or.inl rfl)

/-- C7: on the heuristic path the score is the rounded sum of the three
capped components and never exceeds 100. -/
theorem heuristicScore_formula (p : ScoringInput) (fm : FinancialMetrics)
    (ra : RiskAssessment) (hfm : p.financialMetrics = some fm)
    (hra : p.riskAssessment = some ra) :
    (generateAIAnalysis p none).score =
      jsRound (min (fm.rentalYield * 10) 50 + min (ra.score * 0.3) 30 +
        min ((if p.squareMeters > 70 then (80 : ℚ) else 60) / 20 * 10) 20) ∧
    (generateAIAnalysis p none).score ≤ 100 := by
  have hval : (generateAIAnalysis p none).score =
      jsRound (min (fm.rentalYield * 10) 50 + min (ra.score * 0.3) 30 +
        min ((if p.squareMeters > 70 then (80 : ℚ) else 60) / 20 * 10) 20) := by
    simp only [generateAIAnalysis, hfm, hra]
  refine ⟨hval, ?_⟩
  rw [hval, jsRound]
  have h1 := min_le_right (fm.rentalYield * 10) (50 : ℚ)
  have h2 := min_le_right (ra.score * 0.3) (30 : ℚ)
  have h3 := min_le_right ((if p.squareMeters > 70 then (80 : ℚ) else 60) / 20 * 10) (20 : ℚ)
  calc ⌊min (fm.rentalYield * 10) 50 + min (ra.score * 0.3) 30 +
        min ((if p.squareMeters > 70 then (80 : ℚ) else 60) / 20 * 10) 20 + 1/2⌋
      ≤ ⌊(100 : ℚ) + 1/2⌋ := Int.floor_le_floor (by linarith)
    _ = 100 := by norm_num

/-- C7 witness: the enriched worked example takes the heuristic path. -/
theorem heuristicScore_formula_witness :
    (generateAIAnalysis exampleScoringInput none).score =
      jsRound (min ((calculateInvestmentMetrics exampleProperty).financialMetrics.rentalYield * 10) 50 +
        min ((calculateInvestmentMetrics exampleProperty).riskAssessment.score * 0.3) 30 +
        min ((if exampleScoringInput.squareMeters > 70 then (80 : ℚ) else 60) / 20 * 10) 20) ∧
    (generateAIAnalysis exampleScoringInput none).score ≤ 100 :=
  heuristicScore_formula exampleScoringInput
    (calculateInvestmentMetrics exampleProperty).financialMetrics
    (calculateInvestmentMetrics exampleProperty).riskAssessment rfl rfl

/-- Provenance stamped on every parsed record (`scrapedAt`, a wall-clock
string, is external input and omitted). -/
structure SourceInfo where
  platform : String
  url : String
  deriving DecidableEq

/-- The record a site parser returns. JS leaves `purchasePrice` as `null`
when the price selector is missing and `NaN` when it holds no digits, both
falsy non-numbers, modelled together as `none`; `estimatedMonthlyRent`
is `undefined` (`none`) unless the price was truthy. The fotocasa and
habitaclia parsers return records without a `features` key, hence the
`Option`. -/
structure ParsedProperty where
  propertyAddress : String
  location : String
  purchasePrice : Option ℤ
  estimatedMonthlyRent : Option ℤ
  squareMeters : ℤ
  bedrooms : ℤ
  bathrooms : ℤ
  propertyType : String
  features : Option (List String)
  source : SourceInfo
  deriving DecidableEq

/-- One value of the module-level `propertyCache` map. -/
structure CacheEntry where
  timestamp : ℤ
  data : ParsedProperty
  deriving DecidableEq

/-- The `propertyCache` map, as an association list; `cacheSet` shadows the
old binding, which `cacheGet` never reaches again, so the pair models
`Map.set` / `Map.get` exactly. -/
abbrev Cache := List (String × CacheEntry)

/-- `Map.prototype.get`. -/
def cacheGet (c : Cache) (k : String) : Option CacheEntry :=
  match c with
  | [] => none
  | (k', v) :: rest => if k' = k then some v else cacheGet rest k

/-- `Map.prototype.set`. -/
def cacheSet (c : Cache) (k : String) (v : CacheEntry) : Cache :=
  (k, v) :: c

/-- The one-hour cache TTL, in milliseconds. -/
def CACHE_TTL : ℤ := 3600000

/-- The composite cache key `platform:url`. -/
def scrapeCacheKey (platform url : String) : String := platform ++ ":" ++ url

/-- What a `scrapeProperty` call produces in this model: the returned value
or thrown error, the cache as left behind, and whether a browser session
was opened during the call. -/
structure ScrapeResult where
  outcome : Except String ParsedProperty
  cache : Cache
  browserLaunched : Bool

/-- The platform switch of `scrapeProperty`: the three supported tags
dispatch to their parser (whose outcome on the live page is the
corresponding argument); any other tag throws. -/
def dispatchParser (platform : String)
    (pIdealista pFotocasa pHabitaclia : Except String ParsedProperty) :
    Except String ParsedProperty :=
  if jsToLower platform = "idealista" then pIdealista
  else if jsToLower platform = "fotocasa" then pFotocasa
  else if jsToLower platform = "habitaclia" then pHabitaclia
  else .error ("Unsupported platform: " ++ platform)

/-- The cache-miss path of `scrapeProperty`: the browser is launched before
anything else, navigation failures (`navError = some e`) propagate, a
successful parse is stored in the cache under the composite key with the
current timestamp, and the `finally` closes the browser on every exit. -/
def scrapeFresh (url platform : String) (now : ℤ) (cache : Cache)
    (navError : Option String)
    (pIdealista pFotocasa pHabitaclia : Except String ParsedProperty) : ScrapeResult :=
  match navError with
  | some e => { outcome := .error e, cache := cache, browserLaunched := true }
  | none =>
    match dispatchParser platform pIdealista pFotocasa pHabitaclia with
    | .ok d =>
      { outcome := .ok d
        cache := cacheSet cache (scrapeCacheKey platform url) { timestamp := now, data := d }
        browserLaunched := true }
    | .error e => { outcome := .error e, cache := cache, browserLaunched := true }

/-- `scrapeProperty` from `propertyScraperService`. `now` is `Date.now()`;
the browser/page work is abstracted by `navError` (a launch or navigation
failure) and the three per-platform parse outcomes. -/
def scrapeProperty (url platform : String) (now : ℤ) (cache : Cache)
    (navError : Option String)
    (pIdealista pFotocasa pHabitaclia : Except String ParsedProperty) : ScrapeResult :=
  match cacheGet cache (scrapeCacheKey platform url) with
  | some cachedData =>
    if cachedData.timestamp > now - CACHE_TTL then
      { outcome := .ok cachedData.data, cache := cache, browserLaunched := false }
    else scrapeFresh url platform now cache navError pIdealista pFotocasa pHabitaclia
  | none => scrapeFresh url platform now cache navError pIdealista pFotocasa pHabitaclia

theorem cacheGet_cacheSet (c : Cache) (k : String) (v : CacheEntry) :
    cacheGet (cacheSet c k v) k = some v := by
  simp [cacheGet, cacheSet]

theorem scrapeFresh_browserLaunched (url platform : String) (now : ℤ) (cache : Cache)
    (navError : Option String) (pI pF pH : Except String ParsedProperty) :
    (scrapeFresh url platform now cache navError pI pF pH).browserLaunched = true := by
  unfold scrapeFresh
  rcases navError with _ | e
  · rcases h : dispatchParser platform pI pF pH with e | d <;> simp
  · rfl

theorem scrapeFresh_ok_cache (url platform : String) (now : ℤ) (cache : Cache)
    (navError : Option String) (pI pF pH : Except String ParsedProperty)
    (d : ParsedProperty)
    (h : (scrapeFresh url platform now cache navError pI pF pH).outcome = .ok d) :
    (scrapeFresh url platform now cache navError pI pF pH).cache =
      cacheSet cache (scrapeCacheKey platform url) { timestamp := now, data := d } := by
  unfold scrapeFresh at h ⊢
  rcases navError with _ | e
  · rcases hd : dispatchParser platform pI pF pH with e | d' <;> simp [hd] at h ⊢
    rw [h]
  · simp at h

/-- C3: `scrapeProperty` keys the cache by `platform:url`; an entry captured
within the TTL of `now` is returned unchanged with no browser work; a fresh
scrape (`browserLaunched = true`) that succeeds stores its result under the
key stamped with `now`, so a second call with the same platform and url
within the TTL returns the identical record without opening a browser, and
once the TTL has elapsed since capture the second call scrapes again. -/
theorem scrapeProperty_cache_behavior
    (url platform : String) (now now2 : ℤ) (cache : Cache)
    (navError navError2 : Option String)
    (pI pF pH pI2 pF2 pH2 : Except String ParsedProperty) :
    (∀ c, cacheGet cache (scrapeCacheKey platform url) = some c →
      now - c.timestamp < CACHE_TTL →
      scrapeProperty url platform now cache navError pI pF pH =
        { outcome := .ok c.data, cache := cache, browserLaunched := false }) ∧
    (∀ d, (scrapeProperty url platform now cache navError pI pF pH).outcome = .ok d →
      (scrapeProperty url platform now cache navError pI pF pH).browserLaunched = true →
      cacheGet (scrapeProperty url platform now cache navError pI pF pH).cache
          (scrapeCacheKey platform url) = some { timestamp := now, data := d } ∧
      (now2 - now < CACHE_TTL →
        scrapeProperty url platform now2
            (scrapeProperty url platform now cache navError pI pF pH).cache
            navError2 pI2 pF2 pH2 =
          { outcome := .ok d
            cache := (scrapeProperty url platform now cache navError pI pF pH).cache
            browserLaunched := false }) ∧
      (CACHE_TTL ≤ now2 - now →
        (scrapeProperty url platform now2
            (scrapeProperty url platform now cache navError pI pF pH).cache
            navError2 pI2 pF2 pH2).browserLaunched = true)) := by
  constructor
  · intro c hc hlt
    simp only [scrapeProperty, hc, if_pos (show c.timestamp > now - CACHE_TTL by linarith)]
  · intro d hok hbrowser
    have hfresh : scrapeProperty url platform now cache navError pI pF pH =
        scrapeFresh url platform now cache navError pI pF pH := by
      unfold scrapeProperty at hbrowser ⊢
      rcases hc : cacheGet cache (scrapeCacheKey platform url) with _ | c
      · rfl
      · simp only [hc] at hbrowser ⊢
        by_cases hts : c.timestamp > now - CACHE_TTL
        · simp only [if_pos hts] at hbrowser
          exact absurd hbrowser (by decide)
        · simp only [if_neg hts]
    rw [hfresh] at hok ⊢
    have hcache := scrapeFresh_ok_cache url platform now cache navError pI pF pH d hok
    rw [hcache]
    refine ⟨cacheGet_cacheSet _ _ _, ?_, ?_⟩
    · intro hlt
      simp only [scrapeProperty, cacheGet_cacheSet,
        if_pos (show now > now2 - CACHE_TTL by linarith)]
    · intro hge
      simp only [scrapeProperty, cacheGet_cacheSet,
        if_neg (show ¬now > now2 - CACHE_TTL by linarith)]
      exact scrapeFresh_browserLaunched _ _ _ _ _ _ _ _

/-- A concrete parsed record used by the cache round-trip witness. -/
def witnessParsed : ParsedProperty :=
  { propertyAddress := "Calle Mayor 1"
    location := "Madrid"
    purchasePrice := some 450000
    estimatedMonthlyRent := some 1688
    squareMeters := 90
    bedrooms := 2
    bathrooms := 2
    propertyType := "Apartment"
    features := some []
    source := { platform := "idealista", url := "https://idealista.com/x" } }

/-- C3 witness: scraping `idealista` on an empty cache at time 0 succeeds,
stores the record, and a second call 1000 ms later returns it from the cache
with no browser work, while a call a full TTL later scrapes again. -/
theorem scrapeProperty_cache_behavior_witness :
    cacheGet (scrapeProperty "https://idealista.com/x" "idealista" 0 [] none
        (.ok witnessParsed) (.error "e") (.error "e")).cache
      (scrapeCacheKey "idealista" "https://idealista.com/x") =
        some { timestamp := 0, data := witnessParsed } ∧
    (1000 - 0 < CACHE_TTL →
      scrapeProperty "https://idealista.com/x" "idealista" 1000
          (scrapeProperty "https://idealista.com/x" "idealista" 0 [] none
            (.ok witnessParsed) (.error "e") (.error "e")).cache
          none (.error "late") (.error "late") (.error "late") =
        { outcome := .ok witnessParsed
          cache := (scrapeProperty "https://idealista.com/x" "idealista" 0 [] none
            (.ok witnessParsed) (.error "e") (.error "e")).cache
          browserLaunched := false }) ∧
    (CACHE_TTL ≤ 3600000 - 0 →
      (scrapeProperty "https://idealista.com/x" "idealista" 3600000
          (scrapeProperty "https://idealista.com/x" "idealista" 0 [] none
            (.ok witnessParsed) (.error "e") (.error "e")).cache
          none (.error "late") (.error "late") (.error "late")).browserLaunched = true) := by
  have h := (scrapeProperty_cache_behavior "https://idealista.com/x" "idealista" 0 1000 []
      none none (.ok witnessParsed) (.error "e") (.error "e")
      (.error "late") (.error "late") (.error "late")).2 witnessParsed (by rfl) (by rfl)
  have h2 := (scrapeProperty_cache_behavior "https://idealista.com/x" "idealista" 0 3600000 []
      none none (.ok witnessParsed) (.error "e") (.error "e")
      (.error "late") (.error "late") (.error "late")).2 witnessParsed (by rfl) (by rfl)
  exact ⟨h.1, h.2.1, h2.2.2⟩

/-- C5 counterexample: `scrapeProperty` on the unsupported platform
"zoopla" (cache miss, navigation fine) does throw the unsupported-platform
error, but contrary to the claim a browser session has been opened by the
time of the failure: the dispatch runs only after launch and navigation. -/
theorem scrapeProperty_zoopla_browser_counterexample :
    (scrapeProperty "https://zoopla.co.uk/p" "zoopla" 0 [] none
        (.error "n/a") (.error "n/a") (.error "n/a")).outcome =
      .error ("Unsupported platform: " ++ "zoopla") ∧
    ¬((scrapeProperty "https://zoopla.co.uk/p" "zoopla" 0 [] none
        (.error "n/a") (.error "n/a") (.error "n/a")).browserLaunched = false) := by
  constructor
  · rfl
  · decide

/-- C5 amended: for any platform tag outside the supported trio
(case-insensitively) a cache-miss call with successful navigation fails
with the unsupported-platform error, and a browser session has been opened
before that failure. -/
theorem scrapeProperty_unsupported_platform
    (url platform : String) (now : ℤ) (cache : Cache)
    (pI pF pH : Except String ParsedProperty)
    (hplat : jsToLower platform ≠ "idealista" ∧ jsToLower platform ≠ "fotocasa" ∧
             jsToLower platform ≠ "habitaclia")
    (hmiss : ∀ c, cacheGet cache (scrapeCacheKey platform url) = some c →
      ¬(c.timestamp > now - CACHE_TTL)) :
    (scrapeProperty url platform now cache none pI pF pH).outcome =
      .error ("Unsupported platform: " ++ platform) ∧
    (scrapeProperty url platform now cache none pI pF pH).browserLaunched = true := by
  have hfresh : scrapeProperty url platform now cache none pI pF pH =
      scrapeFresh url platform now cache none pI pF pH := by
    unfold scrapeProperty
    rcases hc : cacheGet cache (scrapeCacheKey platform url) with _ | c
    · rfl
    · simp only [if_neg (hmiss c hc)]
  rw [hfresh]
  constructor
  · unfold scrapeFresh dispatchParser
    simp only [if_neg hplat.1, if_neg hplat.2.1, if_neg hplat.2.2]
  · exact scrapeFresh_browserLaunched _ _ _ _ _ _ _ _

/-- JS `parseInt(s, 10)`: leading whitespace skipped, optional sign, then
leading digits; `none` models `NaN` (no digit found). -/
def jsParseInt (s : String) : Option ℤ :=
  let cs := s.toList.dropWhile Char.isWhitespace
  match cs with
  | '-' :: rest =>
    let ds := rest.takeWhile Char.isDigit
    if ds.isEmpty then none
    else some (-(ds.foldl (fun acc c => acc * 10 + ((c.toNat : ℤ) - 48)) 0))
  | '+' :: rest =>
    let ds := rest.takeWhile Char.isDigit
    if ds.isEmpty then none
    else some (ds.foldl (fun acc c => acc * 10 + ((c.toNat : ℤ) - 48)) 0)
  | _ =>
    let ds := cs.takeWhile Char.isDigit
    if ds.isEmpty then none
    else some (ds.foldl (fun acc c => acc * 10 + ((c.toNat : ℤ) - 48)) 0)

/-- JS `s.replace(/[^0-9]/g, '')`. -/
def stripNonDigits (s : String) : String := String.mk (s.toList.filter Char.isDigit)

/-- The parser sources write the detail regex as `/\\d+/`, which matches a
literal backslash followed by letters `d` — not a digit run. This models
`text.match(/\\d+/)`: the first such occurrence, or `none` (JS `null`). -/
def matchBackslashD : List Char → Option String
  | [] => none
  | '\\' :: rest =>
    let ds := rest.takeWhile (· = 'd')
    if ds.isEmpty then matchBackslashD rest else some (String.mk ('\\' :: ds))
  | _ :: rest => matchBackslashD rest

/-- `parseInt(text.match(/\\d+/)[0], 10)`: indexing a `null` match throws
(the `TypeError` the parser's catch turns into a parse failure); a
successful match parses to `NaN` (`none`) since it starts with a backslash. -/
def matchNum (valueText : String) : Except String (Option ℤ) :=
  match matchBackslashD valueText.toList with
  | none => .error "TypeError: Cannot read properties of null (reading '0')"
  | some m => .ok (jsParseInt m)

/-- One optional detail element: absent leaves the field undefined; present
runs the match-and-parse above on the trimmed text. -/
def detailNum (el : Option String) : Except String (Option ℤ) :=
  match el with
  | none => .ok none
  | some t => matchNum (jsTrim t)

/-- JS `x || 0` on a number-or-undefined (undefined and `NaN` both fall to
the default, and `0 || 0` is `0` either way). -/
def jsOrZero (v : Option ℤ) : ℤ := v.getD 0

/-- JS `s || default` on a string-or-undefined (the empty string is falsy). -/
def jsOrDefaultStr (v : Option String) (d : String) : String :=
  match v with
  | some s => if s = "" then d else s
  | none => d

/-- The shared rent estimation: `Math.round(price * 0.045 / 12)` when the
price is truthy, `undefined` otherwise. -/
def estimateMonthlyRent (purchasePrice : Option ℤ) : Option ℤ :=
  match purchasePrice with
  | some p => if p = 0 then none else some (jsRound ((p : ℚ) * 0.045 / 12))
  | none => none

/-- The selector results `parseIdealista` reads from the loaded page:
`none` is a missing element, `some t` its raw `textContent`. -/
structure IdealistaPage where
  titleMain : Option String
  titleMinor : Option String
  price : Option String
  surface : Option String
  bedrooms : Option String
  bathrooms : Option String
  propertyType : Option String
  featureItems : Option (List String)
  url : String
  deriving DecidableEq

/-- `parseIdealista` from `parsers.js`, selector reads abstracted into the
page record. -/
def parseIdealista (page : IdealistaPage) : Except String ParsedProperty :=
  (do
    let address := (page.titleMain.map jsTrim).getD ""
    let minor := (page.titleMinor.map jsTrim).getD ""
    let propertyAddress := jsTrim (address ++ ", " ++ minor)
    let purchasePrice := page.price.bind fun t => jsParseInt (stripNonDigits (jsTrim t))
    let squareMeters ← detailNum page.surface
    let bedrooms ← detailNum page.bedrooms
    let bathrooms ← detailNum page.bathrooms
    let propertyType := page.propertyType.map jsTrim
    let features := (page.featureItems.getD []).map jsTrim
    let locationData := (page.titleMinor.map jsTrim).getD ""
    pure ({ propertyAddress := propertyAddress
            location := locationData
            purchasePrice := purchasePrice
            estimatedMonthlyRent := estimateMonthlyRent purchasePrice
            squareMeters := jsOrZero squareMeters
            bedrooms := jsOrZero bedrooms
            bathrooms := jsOrZero bathrooms
            propertyType := jsOrDefaultStr propertyType "Apartment"
            features := some features
            source := { platform := "idealista", url := page.url } } :
         ParsedProperty)
  ).mapError fun e => "Failed to parse Idealista data: " ++ e

/-- The selector results `parseFotocasa` reads: the title and price
elements, the characteristics list as (label, next-sibling text) rows, and
the map address. -/
structure FotocasaPage where
  title : Option String
  price : Option String
  featureRows : List (String × Option String)
  mapAddress : Option String
  url : String
  deriving DecidableEq

/-- The mutable `details` object the characteristic loops fill in. -/
structure SiteDetails where
  squareMeters : Option ℤ := none
  bedrooms : Option ℤ := none
  bathrooms : Option ℤ := none
  propertyType : Option String := none
  deriving DecidableEq

/-- One iteration of the fotocasa characteristics `forEach`. -/
def fotocasaFeatureStep (details : SiteDetails) (row : String × Option String) :
    Except String SiteDetails :=
  let featureText := jsTrim row.1
  let valueText := (row.2.map jsTrim).getD ""
  if jsIncludes featureText "Superficie" then
    (matchNum valueText).map fun v => { details with squareMeters := v }
  else if jsIncludes featureText "Habitaciones" then
    (matchNum valueText).map fun v => { details with bedrooms := v }
  else if jsIncludes featureText "Baños" then
    (matchNum valueText).map fun v => { details with bathrooms := v }
  else if jsIncludes featureText "Tipo" then
    .ok { details with propertyType := some valueText }
  else .ok details

/-- The fotocasa characteristics `forEach`; a throw in any iteration aborts
the whole extraction. -/
def fotocasaFeatures : List (String × Option String) → SiteDetails → Except String SiteDetails
  | [], details => .ok details
  | row :: rest, details => do fotocasaFeatures rest (← fotocasaFeatureStep details row)

/-- `parseFotocasa` from `parsers.js`. Its return object has no `features`
key. -/
def parseFotocasa (page : FotocasaPage) : Except String ParsedProperty :=
  (do
    let propertyAddress := (page.title.map jsTrim).getD ""
    let purchasePrice := page.price.bind fun t => jsParseInt (stripNonDigits (jsTrim t))
    let details ← fotocasaFeatures page.featureRows {}
    let locationData := (page.mapAddress.map jsTrim).getD ""
    pure ({ propertyAddress := propertyAddress
            location := locationData
            purchasePrice := purchasePrice
            estimatedMonthlyRent := estimateMonthlyRent purchasePrice
            squareMeters := jsOrZero details.squareMeters
            bedrooms := jsOrZero details.bedrooms
            bathrooms := jsOrZero details.bathrooms
            propertyType := jsOrDefaultStr details.propertyType "Apartment"
            features := none
            source := { platform := "fotocasa", url := page.url } } :
         ParsedProperty)
  ).mapError fun e => "Failed to parse Fotocasa data: " ++ e

/-- The selector results `parseHabitaclia` reads. -/
structure HabitacliaPage where
  title : Option String
  price : Option String
  surface : Option String
  bedrooms : Option String
  bathrooms : Option String
  breadcrumbs : List String
  siteLocation : Option String
  url : String
  deriving DecidableEq

/-- `parseHabitaclia` from `parsers.js`. Its return object has no
`features` key either. -/
def parseHabitaclia (page : HabitacliaPage) : Except String ParsedProperty :=
  (do
    let propertyAddress := (page.title.map jsTrim).getD ""
    let purchasePrice := page.price.bind fun t => jsParseInt (stripNonDigits (jsTrim t))
    let squareMeters ← detailNum page.surface
    let bedrooms ← detailNum page.bedrooms
    let bathrooms ← detailNum page.bathrooms
    let propertyType := (page.breadcrumbs.getLast?).map jsTrim
    let locationData := (page.siteLocation.map jsTrim).getD ""
    pure ({ propertyAddress := propertyAddress
            location := locationData
            purchasePrice := purchasePrice
            estimatedMonthlyRent := estimateMonthlyRent purchasePrice
            squareMeters := jsOrZero squareMeters
            bedrooms := jsOrZero bedrooms
            bathrooms := jsOrZero bathrooms
            propertyType := jsOrDefaultStr propertyType "Apartment"
            features := none
            source := { platform := "habitaclia", url := page.url } } :
         ParsedProperty)
  ).mapError fun e => "Failed to parse Habitaclia data: " ++ e

/-- An idealista page on which every selector lookup comes back empty. -/
def idealistaEmptyPage : IdealistaPage :=
  { titleMain := none, titleMinor := none, price := none, surface := none
    bedrooms := none, bathrooms := none, propertyType := none
    featureItems := none, url := "https://idealista.com/p" }

/-- A fotocasa page on which every selector lookup comes back empty. -/
def fotocasaEmptyPage : FotocasaPage :=
  { title := none, price := none, featureRows := [], mapAddress := none
    url := "https://fotocasa.es/p" }

/-- A habitaclia page on which every selector lookup comes back empty. -/
def habitacliaEmptyPage : HabitacliaPage :=
  { title := none, price := none, surface := none, bedrooms := none
    bathrooms := none, breadcrumbs := [], siteLocation := none
    url := "https://habitaclia.com/p" }

/-- C9 counterexample: on an all-selectors-missing page `parseFotocasa`
succeeds with the default zero fields, but the returned record has no
`features` field at all (modelled as `none`), contradicting the claim that
every supported platform returns a features sequence. -/
theorem parseFotocasa_missing_features :
    parseFotocasa fotocasaEmptyPage =
      .ok { propertyAddress := "", location := "", purchasePrice := none
            estimatedMonthlyRent := none, squareMeters := 0, bedrooms := 0
            bathrooms := 0, propertyType := "Apartment", features := none
            source := { platform := "fotocasa", url := "https://fotocasa.es/p" } } ∧
    (parseFotocasa fotocasaEmptyPage).toOption.map ParsedProperty.features =
      some none := by
  exact ⟨rfl, rfl⟩

/-- C9 amended: all three parsers succeed on a page missing every optional
selector, returning squareMeters = bedrooms = bathrooms = 0,
propertyType = "Apartment" and (possibly empty) address/location strings;
`parseIdealista` additionally returns an empty features list, while
`parseFotocasa` and `parseHabitaclia` return records without a features
field. -/
theorem parsers_missing_selectors_defaults :
    parseIdealista idealistaEmptyPage =
      .ok { propertyAddress := ",", location := "", purchasePrice := none
            estimatedMonthlyRent := none, squareMeters := 0, bedrooms := 0
            bathrooms := 0, propertyType := "Apartment", features := some []
            source := { platform := "idealista", url := "https://idealista.com/p" } } ∧
    parseFotocasa fotocasaEmptyPage =
      .ok { propertyAddress := "", location := "", purchasePrice := none
            estimatedMonthlyRent := none, squareMeters := 0, bedrooms := 0
            bathrooms := 0, propertyType := "Apartment", features := none
            source := { platform := "fotocasa", url := "https://fotocasa.es/p" } } ∧
    parseHabitaclia habitacliaEmptyPage =
      .ok { propertyAddress := "", location := "", purchasePrice := none
            estimatedMonthlyRent := none, squareMeters := 0, bedrooms := 0
            bathrooms := 0, propertyType := "Apartment", features := none
            source := { platform := "habitaclia", url := "https://habitaclia.com/p" } } := by
  exact ⟨rfl, rfl, rfl⟩

/-- C5 amended witness: the "zoopla" tag on an empty cache. -/
theorem scrapeProperty_unsupported_platform_witness :
    (scrapeProperty "https://zoopla.co.uk/p" "zoopla" 0 [] none
        (.error "n/a") (.error "n/a") (.error "n/a")).outcome =
      .error ("Unsupported platform: " ++ "zoopla") ∧
    (scrapeProperty "https://zoopla.co.uk/p" "zoopla" 0 [] none
        (.error "n/a") (.error "n/a") (.error "n/a")).browserLaunched = true :=
  scrapeProperty_unsupported_platform "https://zoopla.co.uk/p" "zoopla" 0 []
    (.error "n/a") (.error "n/a") (.error "n/a")
    ⟨by decide, by decide, by decide⟩ (fun c hc => by simp [cacheGet] at hc)

end Atlas
